import Mathlib

/-!
Shallow embedding of the GPT_Killer_Killer scoring pipeline
(`src/app/utils.py`).

Modelling conventions:
- a Python `str` is a `List Char` (a sequence of Unicode code points);
- Python floats are real numbers, arithmetic is exact (the source takes
  a square root, so `ℝ` rather than `ℚ`); Python's builtin `max`/`min`
  are the conditional functions `pymax`/`pymin`;
- a Python dict of floats is an association list `List (String × α)`
  with `List.lookup`; a `KeyError` is modelled by `Option`: a missing
  key makes the scorer return `none`;
- `re.findall(r"[\w]+", text)` is modelled by grouping maximal runs of
  word characters, where the word-character class covers the scripts
  the program is aimed at (ASCII letters, digits, underscore, and the
  Hangul syllable block);
- `re.split(r"(?<=[\.!?])\s+|\n+", text)` is modelled by a left-to-right
  scanner that splits at a maximal whitespace run immediately preceded
  by `.`, `!` or `?` (first alternative, preferred) or at a maximal run
  of newlines (second alternative).
-/

namespace GPTKK

/-- Word-character class of the tokenizer regex `[\w]+` for the scripts
this program processes: ASCII alphanumerics, underscore, and Hangul
syllables. -/
def isWordChar (c : Char) : Bool :=
  c.isAlphanum || c = '_' || ('가' ≤ c && c ≤ '힣')

/-- Accumulator pass of `re.findall(r"[\w]+", text)`: collects maximal
runs of word characters, in source order. `acc` is the current run,
reversed. -/
def tokensAux : List Char → List Char → List (List Char)
  | [], acc => if acc.isEmpty then [] else [acc.reverse]
  | c :: cs, acc =>
    if isWordChar c then
      tokensAux cs (c :: acc)
    else if acc.isEmpty then
      tokensAux cs []
    else
      acc.reverse :: tokensAux cs []

/-- Python `str.strip()`: drop whitespace from both ends. -/
def trimChars (l : List Char) : List Char :=
  ((l.dropWhile Char.isWhitespace).reverse.dropWhile Char.isWhitespace).reverse

/-- `simple_tokenize` (utils.py line 16): find all `[\w]+` runs, keep the
non-blank ones. -/
def simple_tokenize (text : List Char) : List (List Char) :=
  (tokensAux text []).filter (fun t => !(trimChars t).isEmpty)

/-- Sentence-terminating punctuation class `[\.!?]` of the splitter
regex. -/
def isSentEnd (c : Char) : Bool :=
  c = '.' || c = '!' || c = '?'

/-- Scanner state for the sentence splitter: `norm` = inside a fragment,
`ws` = consuming the `\s+` of a match of the first alternative,
`nl` = consuming the `\n+` of a match of the second alternative. -/
inductive SplitMode : Type
  | norm : SplitMode
  | ws : SplitMode
  | nl : SplitMode

/-- Scanner for `re.split(r"(?<=[\.!?])\s+|\n+", text)`.  `prev` is the
previous character of the original text (for the lookbehind), `acc` the
current fragment, reversed.  A whitespace character whose predecessor is
`.`, `!` or `?` starts a delimiter consuming a maximal whitespace run
(first alternative, tried first); otherwise a newline starts a delimiter
consuming a maximal newline run. -/
def ssAux : List Char → SplitMode → Option Char → List Char → List (List Char)
  | [], _, _, acc => [acc.reverse]
  | c :: cs, SplitMode.norm, prev, acc =>
    if c.isWhitespace && prev.elim false isSentEnd then
      acc.reverse :: ssAux cs SplitMode.ws (some c) []
    else if c = '\n' then
      acc.reverse :: ssAux cs SplitMode.nl (some c) []
    else
      ssAux cs SplitMode.norm (some c) (c :: acc)
  | c :: cs, SplitMode.ws, _, acc =>
    if c.isWhitespace then
      ssAux cs SplitMode.ws (some c) acc
    else
      ssAux cs SplitMode.norm (some c) (c :: acc)
  | c :: cs, SplitMode.nl, _, acc =>
    if c = '\n' then
      ssAux cs SplitMode.nl (some c) acc
    else
      ssAux cs SplitMode.norm (some c) (c :: acc)

/-- `split_sentences` (utils.py line 22): regex split, then strip each
fragment and drop the empty ones. -/
def split_sentences (text : List Char) : List (List Char) :=
  ((ssAux text SplitMode.norm none []).map trimChars).filter (fun s => !s.isEmpty)

/-- `KOREAN_CONNECTIVES` (utils.py line 7): the eleven Korean logical
connectives. -/
def KOREAN_CONNECTIVES : List (List Char) :=
  ["또한".toList, "하지만".toList, "그러나".toList, "결론적으로".toList,
   "요약하자면".toList, "게다가".toList, "한편".toList, "따라서".toList,
   "즉".toList, "때문에".toList, "그럼에도".toList]

/-- `FORMAL_ENDINGS` (utils.py line 13): the six formal sentence-ending
suffixes. -/
def FORMAL_ENDINGS : List (List Char) :=
  ["니다.".toList, "니다!".toList, "니다?".toList,
   "다.".toList, "다!".toList, "다?".toList]

/-- The reduced ending set used by claim C9: only the three plain
`다` + punctuation suffixes. -/
def shortFormalEndings : List (List Char) :=
  ["다.".toList, "다!".toList, "다?".toList]

/-- The seven features of `compute_features` (utils.py lines 83-91),
in the order the source dict is built. -/
structure FeatureSet where
  length_tokens : ℝ
  type_token_ratio : ℝ
  avg_sentence_len : ℝ
  sentence_burstiness : ℝ
  repetition_ratio : ℝ
  formal_ending_ratio : ℝ
  connectives_per_sentence : ℝ

/-- The feature dict as an association list, keys in source order. -/
def FeatureSet.toMap (fs : FeatureSet) : List (String × ℝ) :=
  [("length_tokens", fs.length_tokens),
   ("type_token_ratio", fs.type_token_ratio),
   ("avg_sentence_len", fs.avg_sentence_len),
   ("sentence_burstiness", fs.sentence_burstiness),
   ("repetition_ratio", fs.repetition_ratio),
   ("formal_ending_ratio", fs.formal_ending_ratio),
   ("connectives_per_sentence", fs.connectives_per_sentence)]

/-- The formal-endings loop of `compute_features` (utils.py lines 71-76):
a sentence counts once if it ends with any of the six suffixes. -/
def formalCount (sentences : List (List Char)) : Nat :=
  (sentences.filter (fun s => FORMAL_ENDINGS.any (fun fe => fe.isSuffixOf s))).length

/-- Python's builtin `min` on two arguments. -/
def pymin {α : Type} [LinearOrder α] (a b : α) : α :=
  if a ≤ b then a else b

/-- Python's builtin `max` on two arguments. -/
def pymax {α : Type} [LinearOrder α] (a b : α) : α :=
  if a ≤ b then b else a

/-- `compute_features` (utils.py line 28), transliterated local by
local.  Real-valued because the source takes `math.sqrt`. -/
noncomputable def compute_features (text : List Char) : FeatureSet :=
  let sentences := split_sentences text
  let tokens := simple_tokenize text
  let n_tokens := tokens.length
  let n_sent := if sentences.isEmpty then 1 else sentences.length
  if n_tokens = 0 then
    ⟨0, 0, 0, 0, 0, 0, 0⟩
  else
    let type_token_ratio : ℝ := (tokens.dedup.length : ℝ) / (n_tokens : ℝ)
    let sent_lens := sentences.map (fun s => (simple_tokenize s).length)
    let avg_sentence_len : ℝ :=
      if n_sent ≠ 0 then (sent_lens.sum : ℝ) / (n_sent : ℝ) else 0
    let std : ℝ :=
      if 1 < sent_lens.length then
        Real.sqrt
          ((sent_lens.map (fun l => ((l : ℝ) - avg_sentence_len) ^ 2)).sum
            / ((sent_lens.length : ℝ) - 1))
      else 0
    let burstiness : ℝ := if 0 < avg_sentence_len then std / avg_sentence_len else 0
    let most_common_freq := (tokens.map (fun t => tokens.count t)).foldr max 0
    let repetition_ratio : ℝ := (most_common_freq : ℝ) / (n_tokens : ℝ)
    let formal_ending_ratio : ℝ :=
      if n_sent ≠ 0 then (formalCount sentences : ℝ) / (n_sent : ℝ) else 0
    let connective_count := (tokens.filter (fun t => KOREAN_CONNECTIVES.contains t)).length
    let connectives_per_sentence : ℝ :=
      if n_sent ≠ 0 then (connective_count : ℝ) / (n_sent : ℝ) else 0
    ⟨(n_tokens : ℝ), type_token_ratio, avg_sentence_len, burstiness,
      repetition_ratio, formal_ending_ratio, connectives_per_sentence⟩

/-- The output dict of `score_ai_likelihood` (utils.py lines 138-147):
five sub-scores plus the raw and the final combined score. -/
structure SubScoreSet where
  ttr_score : ℝ
  burstiness_score : ℝ
  formal_score : ℝ
  connectives_score : ℝ
  repetition_score : ℝ
  ai_score_raw : ℝ
  ai_score : ℝ

/-- The arithmetic part of `score_ai_likelihood` (utils.py lines
110-149), after the six dict lookups have produced values. -/
noncomputable def scoreCore
    (ttr burst formal conn length repetition : ℝ) : SubScoreSet :=
  let base_penalty : ℝ := if length < 30 then 0.1 else 0
  let ttr_score := 1.0 - pymax 0.0 (pymin 1.0 ((ttr - 0.3) / (0.8 - 0.3)))
  let burst_score := 1.0 - pymax 0.0 (pymin 1.0 (burst / 0.8))
  let formal_score := pymax 0.0 (pymin 1.0 (formal / 0.8))
  let conn_score := pymax 0.0 (pymin 1.0 (conn / 0.8))
  let rep_score := pymax 0.0 (pymin 1.0 (repetition / 0.2))
  let ai_score_raw :=
    0.30 * ttr_score +
    0.20 * burst_score +
    0.20 * formal_score +
    0.15 * conn_score +
    0.15 * rep_score
  let ai_score := pymax 0.0 (pymin 1.0 (ai_score_raw + base_penalty))
  ⟨ttr_score, burst_score, formal_score, conn_score, rep_score, ai_score_raw, ai_score⟩

/-- `score_ai_likelihood` (utils.py line 94): six dict lookups (lines
103-108, a missing key is a `KeyError`, i.e. `none`), then the scoring
arithmetic. -/
noncomputable def score_ai_likelihood
    (features : List (String × ℝ)) : Option SubScoreSet := do
  let ttr ← features.lookup "type_token_ratio"
  let burst ← features.lookup "sentence_burstiness"
  let formal ← features.lookup "formal_ending_ratio"
  let conn ← features.lookup "connectives_per_sentence"
  let length ← features.lookup "length_tokens"
  let repetition ← features.lookup "repetition_ratio"
  return scoreCore ttr burst formal conn length repetition

/-- `label_from_score` (utils.py line 152). -/
noncomputable def label_from_score (score : ℝ) : String :=
  if score ≥ 0.7 then "AI_LIKELY"
  else if score ≥ 0.4 then "UNCERTAIN"
  else "HUMAN_LIKELY"

/-- The six feature keys the scorer actually reads (utils.py lines
103-108); `avg_sentence_len` is not among them. -/
def accessedKeys : List String :=
  ["type_token_ratio", "sentence_burstiness", "formal_ending_ratio",
   "connectives_per_sentence", "length_tokens", "repetition_ratio"]

/-- Mean of a list of sentence lengths, as the spec describes it. -/
noncomputable def meanList (xs : List Nat) : ℝ :=
  (xs.sum : ℝ) / (xs.length : ℝ)

/-- Sample standard deviation (denominator `n - 1`) of a list of
sentence lengths, as the spec describes it. -/
noncomputable def sampleStd (xs : List Nat) : ℝ :=
  Real.sqrt ((xs.map (fun x => ((x : ℝ) - meanList xs) ^ 2)).sum
    / ((xs.length : ℝ) - 1))

/-! ### Helper lemmas -/

theorem pymin_eq {α : Type} [LinearOrder α] (a b : α) : pymin a b = min a b := by
  unfold pymin
  split_ifs with h
  · exact (min_eq_left h).symm
  · exact (min_eq_right (le_of_not_le h)).symm

theorem pymax_eq {α : Type} [LinearOrder α] (a b : α) : pymax a b = max a b := by
  unfold pymax
  split_ifs with h
  · exact (max_eq_right h).symm
  · exact (max_eq_left (le_of_not_le h)).symm

theorem clamp01_nonneg (x : ℝ) : 0 ≤ pymax 0.0 (pymin 1.0 x) := by
  rw [pymax_eq]
  exact le_max_of_le_left (by norm_num)

theorem clamp01_le_one (x : ℝ) : pymax 0.0 (pymin 1.0 x) ≤ 1 := by
  rw [pymax_eq, pymin_eq]
  exact max_le (by norm_num) ((min_le_left _ _).trans (by norm_num))

theorem clamp01_mono {x y : ℝ} (h : x ≤ y) :
    pymax 0.0 (pymin 1.0 x) ≤ pymax 0.0 (pymin 1.0 y) := by
  rw [pymax_eq, pymax_eq, pymin_eq, pymin_eq]
  exact max_le_max le_rfl (min_le_min le_rfl h)

theorem clamp01_of_mem {x : ℝ} (h0 : 0 ≤ x) (h1 : x ≤ 1) :
    pymax 0.0 (pymin 1.0 x) = x := by
  rw [pymax_eq, pymin_eq]
  rw [min_eq_right (by linarith), max_eq_right (by linarith)]

/-- Scoring the seven-key feature dict always succeeds and yields the
core arithmetic applied to the six accessed values. -/
theorem score_toMap (fs : FeatureSet) :
    score_ai_likelihood fs.toMap =
      some (scoreCore fs.type_token_ratio fs.sentence_burstiness
        fs.formal_ending_ratio fs.connectives_per_sentence
        fs.length_tokens fs.repetition_ratio) := rfl

theorem scoreCore_ttr (ttr burst formal conn length repetition : ℝ) :
    (scoreCore ttr burst formal conn length repetition).ttr_score =
      1.0 - pymax 0.0 (pymin 1.0 ((ttr - 0.3) / (0.8 - 0.3))) := rfl

theorem scoreCore_burst (ttr burst formal conn length repetition : ℝ) :
    (scoreCore ttr burst formal conn length repetition).burstiness_score =
      1.0 - pymax 0.0 (pymin 1.0 (burst / 0.8)) := rfl

theorem scoreCore_formal (ttr burst formal conn length repetition : ℝ) :
    (scoreCore ttr burst formal conn length repetition).formal_score =
      pymax 0.0 (pymin 1.0 (formal / 0.8)) := rfl

theorem scoreCore_conn (ttr burst formal conn length repetition : ℝ) :
    (scoreCore ttr burst formal conn length repetition).connectives_score =
      pymax 0.0 (pymin 1.0 (conn / 0.8)) := rfl

theorem scoreCore_rep (ttr burst formal conn length repetition : ℝ) :
    (scoreCore ttr burst formal conn length repetition).repetition_score =
      pymax 0.0 (pymin 1.0 (repetition / 0.2)) := rfl

theorem scoreCore_raw (ttr burst formal conn length repetition : ℝ) :
    (scoreCore ttr burst formal conn length repetition).ai_score_raw =
      0.30 * (scoreCore ttr burst formal conn length repetition).ttr_score +
      0.20 * (scoreCore ttr burst formal conn length repetition).burstiness_score +
      0.20 * (scoreCore ttr burst formal conn length repetition).formal_score +
      0.15 * (scoreCore ttr burst formal conn length repetition).connectives_score +
      0.15 * (scoreCore ttr burst formal conn length repetition).repetition_score := rfl

theorem scoreCore_ai (ttr burst formal conn length repetition : ℝ) :
    (scoreCore ttr burst formal conn length repetition).ai_score =
      pymax 0.0 (pymin 1.0
        ((scoreCore ttr burst formal conn length repetition).ai_score_raw +
          (if length < 30 then 0.1 else 0))) := rfl

theorem scoreCore_ai_bounds (ttr burst formal conn length repetition : ℝ) :
    0 ≤ (scoreCore ttr burst formal conn length repetition).ai_score ∧
    (scoreCore ttr burst formal conn length repetition).ai_score ≤ 1 :=
  ⟨by rw [scoreCore_ai]; exact clamp01_nonneg _,
   by rw [scoreCore_ai]; exact clamp01_le_one _⟩

theorem scoreCore_bounds (ttr burst formal conn length repetition : ℝ) :
    0 ≤ (scoreCore ttr burst formal conn length repetition).ttr_score ∧
    (scoreCore ttr burst formal conn length repetition).ttr_score ≤ 1 ∧
    0 ≤ (scoreCore ttr burst formal conn length repetition).burstiness_score ∧
    (scoreCore ttr burst formal conn length repetition).burstiness_score ≤ 1 ∧
    0 ≤ (scoreCore ttr burst formal conn length repetition).formal_score ∧
    (scoreCore ttr burst formal conn length repetition).formal_score ≤ 1 ∧
    0 ≤ (scoreCore ttr burst formal conn length repetition).connectives_score ∧
    (scoreCore ttr burst formal conn length repetition).connectives_score ≤ 1 ∧
    0 ≤ (scoreCore ttr burst formal conn length repetition).repetition_score ∧
    (scoreCore ttr burst formal conn length repetition).repetition_score ≤ 1 ∧
    0 ≤ (scoreCore ttr burst formal conn length repetition).ai_score ∧
    (scoreCore ttr burst formal conn length repetition).ai_score ≤ 1 := by
  have t0 := clamp01_nonneg ((ttr - 0.3) / (0.8 - 0.3))
  have t1 := clamp01_le_one ((ttr - 0.3) / (0.8 - 0.3))
  have b0 := clamp01_nonneg (burst / 0.8)
  have b1 := clamp01_le_one (burst / 0.8)
  refine ⟨?_, ?_, ?_, ?_, ?_, ?_, ?_, ?_, ?_, ?_,
    (scoreCore_ai_bounds ttr burst formal conn length repetition).1,
    (scoreCore_ai_bounds ttr burst formal conn length repetition).2⟩
  · rw [scoreCore_ttr]; linarith
  · rw [scoreCore_ttr]; linarith
  · rw [scoreCore_burst]; linarith
  · rw [scoreCore_burst]; linarith
  · rw [scoreCore_formal]; exact clamp01_nonneg _
  · rw [scoreCore_formal]; exact clamp01_le_one _
  · rw [scoreCore_conn]; exact clamp01_nonneg _
  · rw [scoreCore_conn]; exact clamp01_le_one _
  · rw [scoreCore_rep]; exact clamp01_nonneg _
  · rw [scoreCore_rep]; exact clamp01_le_one _

theorem scoreCore_raw_bounds (ttr burst formal conn length repetition : ℝ) :
    0 ≤ (scoreCore ttr burst formal conn length repetition).ai_score_raw ∧
    (scoreCore ttr burst formal conn length repetition).ai_score_raw ≤ 1 := by
  obtain ⟨t0, t1, b0, b1, f0, f1, c0, c1, r0, r1, -, -⟩ :=
    scoreCore_bounds ttr burst formal conn length repetition
  rw [scoreCore_raw]
  constructor <;> nlinarith

/-- The ai_score of the formal-ending slot is monotone: raising the
formal-ending ratio cannot lower the final score. -/
theorem scoreCore_formal_mono (a b c l r : ℝ) {x y : ℝ} (h : x ≤ y) :
    (scoreCore a b x c l r).ai_score ≤ (scoreCore a b y c l r).ai_score := by
  rw [scoreCore_ai, scoreCore_ai]
  apply clamp01_mono
  have hs : (scoreCore a b x c l r).formal_score ≤ (scoreCore a b y c l r).formal_score := by
    rw [scoreCore_formal, scoreCore_formal]
    exact clamp01_mono ((div_le_div_iff_of_pos_right (by norm_num)).mpr h)
  rw [scoreCore_raw, scoreCore_raw, scoreCore_ttr, scoreCore_ttr, scoreCore_burst,
    scoreCore_burst, scoreCore_conn, scoreCore_conn, scoreCore_rep, scoreCore_rep]
  linarith

/-- The ai_score of the type-token-ratio slot is antitone: raising the
type-token ratio cannot raise the final score. -/
theorem scoreCore_ttr_anti (b f c l r : ℝ) {x y : ℝ} (h : x ≤ y) :
    (scoreCore y b f c l r).ai_score ≤ (scoreCore x b f c l r).ai_score := by
  rw [scoreCore_ai, scoreCore_ai]
  apply clamp01_mono
  have hs : pymax 0.0 (pymin 1.0 ((x - 0.3) / (0.8 - 0.3))) ≤
      pymax 0.0 (pymin 1.0 ((y - 0.3) / (0.8 - 0.3))) := by
    apply clamp01_mono
    have : (0:ℝ) < 0.8 - 0.3 := by norm_num
    exact (div_le_div_iff_of_pos_right this).mpr (by linarith)
  rw [scoreCore_raw, scoreCore_raw, scoreCore_ttr, scoreCore_ttr, scoreCore_burst,
    scoreCore_burst, scoreCore_formal, scoreCore_formal, scoreCore_conn, scoreCore_conn,
    scoreCore_rep, scoreCore_rep]
  linarith

/-! ### Claims -/

/-- Claim C3: on the FeatureSet with `type_token_ratio = 1`,
`sentence_burstiness = 0`, `formal_ending_ratio = 0`,
`connectives_per_sentence = 0`, `repetition_ratio = 0.05` and
`length_tokens = 40` (avg sentence length 20), `score_ai_likelihood`
yields `ttr_score = 0`, `burstiness_score = 1`, `formal_score = 0`,
`connectives_score = 0`, `repetition_score = 0.25`,
`ai_score_raw = 0.2375`, `ai_score = 0.2375` (no short-text penalty
since 40 ≥ 30), and `label_from_score` returns `HUMAN_LIKELY`. -/
theorem c3_end_to_end_example :
    score_ai_likelihood (FeatureSet.toMap ⟨40, 1, 20, 0, 0.05, 0, 0⟩) =
      some ⟨0, 1, 0, 0, 0.25, 0.2375, 0.2375⟩ ∧
    label_from_score (0.2375 : ℝ) = "HUMAN_LIKELY" := by
  constructor
  · rw [score_toMap]
    have : scoreCore 1 0 0 0 40 0.05 = ⟨0, 1, 0, 0, 0.25, 0.2375, 0.2375⟩ := by
      simp only [scoreCore, SubScoreSet.mk.injEq]
      norm_num [pymax, pymin]
    rw [this]
  · norm_num [label_from_score]

/-- Claim C4: `label_from_score` is total: every real score falls in
exactly one of the three threshold ranges with the corresponding label
(`≥ 0.7` AI_LIKELY, `[0.4, 0.7)` UNCERTAIN, `< 0.4` HUMAN_LIKELY), and
the boundary scores 0.7 and 0.4 take the higher-labeled branch. -/
theorem c4_label_thresholds (score : ℝ) :
    ((0.7 ≤ score ∧ label_from_score score = "AI_LIKELY") ∨
     (0.4 ≤ score ∧ score < 0.7 ∧ label_from_score score = "UNCERTAIN") ∨
     (score < 0.4 ∧ label_from_score score = "HUMAN_LIKELY")) ∧
    label_from_score (0.7 : ℝ) = "AI_LIKELY" ∧
    label_from_score (0.4 : ℝ) = "UNCERTAIN" := by
  refine ⟨?_, by norm_num [label_from_score], by norm_num [label_from_score]⟩
  unfold label_from_score
  rcases le_or_lt (0.7 : ℝ) score with h7 | h7
  · exact Or.inl ⟨h7, by rw [if_pos h7]⟩
  · rcases le_or_lt (0.4 : ℝ) score with h4 | h4
    · exact Or.inr (Or.inl ⟨h4, h7, by rw [if_neg (not_le.mpr h7), if_pos h4]⟩)
    · exact Or.inr (Or.inr ⟨h4, by rw [if_neg (not_le.mpr h7), if_neg (not_le.mpr h4)]⟩)

/-- Claim C5: for every seven-key FeatureSet (any real values),
`score_ai_likelihood` succeeds with all five sub-scores in `[0, 1]` and
`ai_score` in `[0, 1]`; hence in particular the full pipeline's
`ai_score` is in `[0, 1]` for every input text. -/
theorem c5_scores_bounded (fs : FeatureSet) (text : List Char) :
    (∃ ss, score_ai_likelihood fs.toMap = some ss ∧
      0 ≤ ss.ttr_score ∧ ss.ttr_score ≤ 1 ∧
      0 ≤ ss.burstiness_score ∧ ss.burstiness_score ≤ 1 ∧
      0 ≤ ss.formal_score ∧ ss.formal_score ≤ 1 ∧
      0 ≤ ss.connectives_score ∧ ss.connectives_score ≤ 1 ∧
      0 ≤ ss.repetition_score ∧ ss.repetition_score ≤ 1 ∧
      0 ≤ ss.ai_score ∧ ss.ai_score ≤ 1) ∧
    (∃ ss, score_ai_likelihood (compute_features text).toMap = some ss ∧
      0 ≤ ss.ai_score ∧ ss.ai_score ≤ 1) :=
  ⟨⟨_, score_toMap fs, scoreCore_bounds _ _ _ _ _ _⟩,
   ⟨_, score_toMap (compute_features text),
    (scoreCore_ai_bounds _ _ _ _ _ _).1, (scoreCore_ai_bounds _ _ _ _ _ _).2⟩⟩

/-- Claim C10: for every seven-key FeatureSet, `ai_score_raw` already
lies in `[0, 1]` before clamping (a convex combination of the clamped
sub-scores), so when `length_tokens ≥ 30` (penalty 0) the final
`ai_score` equals `ai_score_raw` exactly. -/
theorem c10_raw_convex (fs : FeatureSet) :
    ∃ ss, score_ai_likelihood fs.toMap = some ss ∧
      0 ≤ ss.ai_score_raw ∧ ss.ai_score_raw ≤ 1 ∧
      (30 ≤ fs.length_tokens → ss.ai_score = ss.ai_score_raw) := by
  obtain ⟨h0, h1⟩ := scoreCore_raw_bounds fs.type_token_ratio fs.sentence_burstiness
    fs.formal_ending_ratio fs.connectives_per_sentence fs.length_tokens fs.repetition_ratio
  refine ⟨_, score_toMap fs, h0, h1, fun h => ?_⟩
  rw [scoreCore_ai, if_neg (not_lt.mpr h), add_zero]
  exact clamp01_of_mem h0 h1

/-- Witness for C10 at the concrete FeatureSet of the end-to-end
example, whose `length_tokens = 40` discharges the inner hypothesis. -/
theorem c10_raw_convex_witness :
    ∃ ss, score_ai_likelihood (FeatureSet.toMap ⟨40, 1, 20, 0, 0.05, 0, 0⟩) = some ss ∧
      ss.ai_score = ss.ai_score_raw := by
  obtain ⟨ss, hss, -, -, h⟩ := c10_raw_convex ⟨40, 1, 20, 0, 0.05, 0, 0⟩
  exact ⟨ss, hss, h (by norm_num)⟩

/-- Claim C8: `repetition_score = clamp01(repetition_ratio / 0.2)`, so a
FeatureSet whose repetition ratio is exactly 0.2 — or anything above —
yields `repetition_score = 1`. -/
theorem c8_repetition_boundary (fs : FeatureSet) (h : 0.2 ≤ fs.repetition_ratio) :
    ∃ ss, score_ai_likelihood fs.toMap = some ss ∧ ss.repetition_score = 1 := by
  refine ⟨_, score_toMap fs, ?_⟩
  rw [scoreCore_rep, pymax_eq, pymin_eq]
  have h2 : (1.0 : ℝ) ≤ fs.repetition_ratio / 0.2 := by
    rw [le_div_iff₀ (by norm_num : (0:ℝ) < 0.2)]
    linarith
  rw [min_eq_left h2, max_eq_right (by norm_num : (0.0:ℝ) ≤ 1.0)]
  norm_num

/-- Witness for C8: a FeatureSet with repetition ratio exactly 0.2. -/
theorem c8_repetition_boundary_witness :
    (0.2 : ℝ) ≤ 0.2 ∧
    ∃ ss, score_ai_likelihood (FeatureSet.toMap ⟨40, 1, 20, 0, 0.2, 0, 0⟩) = some ss ∧
      ss.repetition_score = 1 :=
  ⟨le_refl _, c8_repetition_boundary ⟨40, 1, 20, 0, 0.2, 0, 0⟩ (le_refl _)⟩

/-- Claim C6: holding the other six features fixed, raising
`formal_ending_ratio` never lowers `ai_score`, and raising
`type_token_ratio` within `[0.3, 0.8]` never raises `ai_score`. -/
theorem c6_monotonicity (fs : FeatureSet) (f1 f2 t1 t2 : ℝ)
    (hf : f1 ≤ f2) (ht1 : 0.3 ≤ t1) (ht12 : t1 ≤ t2) (ht2 : t2 ≤ 0.8) :
    (∃ s1 s2,
      score_ai_likelihood (FeatureSet.toMap { fs with formal_ending_ratio := f1 }) = some s1 ∧
      score_ai_likelihood (FeatureSet.toMap { fs with formal_ending_ratio := f2 }) = some s2 ∧
      s1.ai_score ≤ s2.ai_score) ∧
    (∃ s1 s2,
      score_ai_likelihood (FeatureSet.toMap { fs with type_token_ratio := t1 }) = some s1 ∧
      score_ai_likelihood (FeatureSet.toMap { fs with type_token_ratio := t2 }) = some s2 ∧
      s2.ai_score ≤ s1.ai_score) :=
  ⟨⟨_, _, score_toMap _, score_toMap _,
    scoreCore_formal_mono fs.type_token_ratio fs.sentence_burstiness
      fs.connectives_per_sentence fs.length_tokens fs.repetition_ratio hf⟩,
   ⟨_, _, score_toMap _, score_toMap _,
    scoreCore_ttr_anti fs.sentence_burstiness fs.formal_ending_ratio
      fs.connectives_per_sentence fs.length_tokens fs.repetition_ratio ht12⟩⟩

/-- Witness for C6 at concrete feature values 0 ≤ 0.5 (formal) and
0.3 ≤ 0.5 ≤ 0.8 (type-token ratio). -/
theorem c6_monotonicity_witness :
    (0 : ℝ) ≤ 0.5 ∧ (0.3 : ℝ) ≤ 0.3 ∧ (0.3 : ℝ) ≤ 0.5 ∧ (0.5 : ℝ) ≤ 0.8 ∧
    ((∃ s1 s2,
      score_ai_likelihood
        (FeatureSet.toMap { (⟨40, 1, 20, 0, 0.05, 0, 0⟩ : FeatureSet) with
          formal_ending_ratio := (0:ℝ) }) = some s1 ∧
      score_ai_likelihood
        (FeatureSet.toMap { (⟨40, 1, 20, 0, 0.05, 0, 0⟩ : FeatureSet) with
          formal_ending_ratio := (0.5:ℝ) }) = some s2 ∧
      s1.ai_score ≤ s2.ai_score) ∧
    (∃ s1 s2,
      score_ai_likelihood
        (FeatureSet.toMap { (⟨40, 1, 20, 0, 0.05, 0, 0⟩ : FeatureSet) with
          type_token_ratio := (0.3:ℝ) }) = some s1 ∧
      score_ai_likelihood
        (FeatureSet.toMap { (⟨40, 1, 20, 0, 0.05, 0, 0⟩ : FeatureSet) with
          type_token_ratio := (0.5:ℝ) }) = some s2 ∧
      s2.ai_score ≤ s1.ai_score)) :=
  ⟨by norm_num, by norm_num, by norm_num, by norm_num,
   c6_monotonicity ⟨40, 1, 20, 0, 0.05, 0, 0⟩ 0 0.5 0.3 0.5
     (by norm_num) (by norm_num) (by norm_num) (by norm_num)⟩

/-- A bind over an option chain is `none` as soon as the continuation
is constantly `none`. -/
theorem optBindNone {β γ : Type} (o : Option β) (f : β → Option γ)
    (h : ∀ a, f a = none) : (o >>= f) = none := by
  cases o with
  | none => rfl
  | some a => exact h a

/-- Counterexample to claim C2 as stated: the scorer never reads
`avg_sentence_len`, so the six-key map that omits exactly that key
still scores successfully instead of failing with a lookup error. -/
theorem c2_missing_key_counterexample :
    ([("length_tokens", (40:ℝ)), ("type_token_ratio", 0.5),
      ("sentence_burstiness", 0.1), ("repetition_ratio", 0.05),
      ("formal_ending_ratio", 0.2), ("connectives_per_sentence", 0.3)]).lookup
        "avg_sentence_len" = none ∧
    score_ai_likelihood
      [("length_tokens", (40:ℝ)), ("type_token_ratio", 0.5),
       ("sentence_burstiness", 0.1), ("repetition_ratio", 0.05),
       ("formal_ending_ratio", 0.2), ("connectives_per_sentence", 0.3)] ≠ none := by
  refine ⟨rfl, ?_⟩
  have h : score_ai_likelihood
      [("length_tokens", (40:ℝ)), ("type_token_ratio", 0.5),
       ("sentence_burstiness", 0.1), ("repetition_ratio", 0.05),
       ("formal_ending_ratio", 0.2), ("connectives_per_sentence", 0.3)] =
      some (scoreCore 0.5 0.1 0.2 0.3 40 0.05) := rfl
  rw [h]
  exact Option.some_ne_none _

/-- Claim C2 amended: omitting any one of the six keys the scorer
actually reads (all of the seven except `avg_sentence_len`) makes
`score_ai_likelihood` fail with a lookup error (`none`). -/
theorem c2_missing_key_amended (m : List (String × ℝ)) (k : String)
    (hk : k ∈ accessedKeys) (h : m.lookup k = none) :
    score_ai_likelihood m = none := by
  have hmem : k = "type_token_ratio" ∨ k = "sentence_burstiness" ∨
      k = "formal_ending_ratio" ∨ k = "connectives_per_sentence" ∨
      k = "length_tokens" ∨ k = "repetition_ratio" := by
    simpa [accessedKeys] using hk
  unfold score_ai_likelihood
  rcases hmem with rfl | rfl | rfl | rfl | rfl | rfl
  · rw [h]; rfl
  · refine optBindNone _ _ fun ttr => ?_
    rw [h]; rfl
  · refine optBindNone _ _ fun ttr => optBindNone _ _ fun burst => ?_
    rw [h]; rfl
  · refine optBindNone _ _ fun ttr => optBindNone _ _ fun burst =>
      optBindNone _ _ fun formal => ?_
    rw [h]; rfl
  · refine optBindNone _ _ fun ttr => optBindNone _ _ fun burst =>
      optBindNone _ _ fun formal => optBindNone _ _ fun conn => ?_
    rw [h]; rfl
  · refine optBindNone _ _ fun ttr => optBindNone _ _ fun burst =>
      optBindNone _ _ fun formal => optBindNone _ _ fun conn =>
      optBindNone _ _ fun length => ?_
    rw [h]; rfl

/-- Witness for C2 amended: the empty map omits `type_token_ratio`. -/
theorem c2_missing_key_witness :
    "type_token_ratio" ∈ accessedKeys ∧
    ([] : List (String × ℝ)).lookup "type_token_ratio" = none ∧
    score_ai_likelihood ([] : List (String × ℝ)) = none :=
  ⟨by simp [accessedKeys], rfl,
   c2_missing_key_amended [] "type_token_ratio" (by simp [accessedKeys]) rfl⟩

/-- Counterexample to claim C1 as stated: on the zero-token input
`"?!"` the features are all zero, but `burstiness_score` is then
`1 - clamp01(0 / 0.8) = 1`, not 0, so the raw score is
`0.30·1 + 0.20·1 = 0.50` and the final score is `0.60`, not the
claimed `0.40`. -/
theorem c1_zero_token_counterexample :
    simple_tokenize ['?', '!'] = [] ∧
    (score_ai_likelihood (compute_features ['?', '!']).toMap).map SubScoreSet.ai_score =
      some 0.6 ∧
    (score_ai_likelihood (compute_features ['?', '!']).toMap).map SubScoreSet.ai_score ≠
      some 0.4 := by
  have hcf : compute_features ['?', '!'] = ⟨0, 0, 0, 0, 0, 0, 0⟩ := rfl
  have hs : score_ai_likelihood (FeatureSet.toMap ⟨0, 0, 0, 0, 0, 0, 0⟩) =
      some (scoreCore 0 0 0 0 0 0) := rfl
  have hval : (scoreCore 0 0 0 0 0 0).ai_score = 0.6 := by
    simp only [scoreCore]
    norm_num [pymax, pymin]
  refine ⟨rfl, ?_, ?_⟩
  · rw [hcf, hs]
    simp [hval]
  · rw [hcf, hs]
    simp only [Option.map_some']
    rw [hval]
    intro hcontra
    have := Option.some.inj hcontra
    norm_num at this

/-- Claim C1 amended: every zero-token input yields the all-zero
FeatureSet, and scoring it gives `ai_score_raw = 0.50` (the ttr and
burstiness sub-scores are both 1), `ai_score = 0.60` after the 0.1
short-text penalty, and label `UNCERTAIN`. -/
theorem c1_zero_token_amended (text : List Char) (h : simple_tokenize text = []) :
    compute_features text = ⟨0, 0, 0, 0, 0, 0, 0⟩ ∧
    ∃ ss, score_ai_likelihood (compute_features text).toMap = some ss ∧
      ss.ai_score_raw = 0.5 ∧ ss.ai_score = 0.6 ∧
      label_from_score ss.ai_score = "UNCERTAIN" := by
  have hcf : compute_features text = ⟨0, 0, 0, 0, 0, 0, 0⟩ := by
    simp [compute_features, h]
  have hraw : (scoreCore 0 0 0 0 0 0).ai_score_raw = 0.5 := by
    simp only [scoreCore]
    norm_num [pymax, pymin]
  have hai : (scoreCore 0 0 0 0 0 0).ai_score = 0.6 := by
    simp only [scoreCore]
    norm_num [pymax, pymin]
  refine ⟨hcf, scoreCore 0 0 0 0 0 0, ?_, hraw, hai, ?_⟩
  · rw [hcf]
    exact score_toMap _
  · rw [hai]
    norm_num [label_from_score]

/-- Witness for C1 amended at the concrete zero-token input `"?"`. -/
theorem c1_zero_token_witness :
    simple_tokenize ['?'] = [] ∧
    (compute_features ['?'] = ⟨0, 0, 0, 0, 0, 0, 0⟩ ∧
     ∃ ss, score_ai_likelihood (compute_features ['?']).toMap = some ss ∧
       ss.ai_score_raw = 0.5 ∧ ss.ai_score = 0.6 ∧
       label_from_score ss.ai_score = "UNCERTAIN") :=
  ⟨by decide, c1_zero_token_amended ['?'] (by decide)⟩

/-- Claim C9: the three `니다` entries of the six-suffix formal-ending
set are redundant: a sentence ending in `니다.`/`니다!`/`니다?` already
ends in `다.`/`다!`/`다?`, so for every sentence the six-suffix match
equals the three-suffix match, and for every sentence list the formal
count (hence the formal-ending ratio) is unchanged by dropping them. -/
theorem c9_formal_endings_redundant (sentences : List (List Char)) :
    (∀ s : List Char,
      (FORMAL_ENDINGS.any fun fe => fe.isSuffixOf s) =
        (shortFormalEndings.any fun fe => fe.isSuffixOf s)) ∧
    formalCount sentences =
      (sentences.filter fun s => shortFormalEndings.any fun fe => fe.isSuffixOf s).length := by
  have sub1 : ("다.".toList) <:+ ("니다.".toList) := by decide
  have sub2 : ("다!".toList) <:+ ("니다!".toList) := by decide
  have sub3 : ("다?".toList) <:+ ("니다?".toList) := by decide
  have key : ∀ s : List Char,
      (FORMAL_ENDINGS.any fun fe => fe.isSuffixOf s) =
        (shortFormalEndings.any fun fe => fe.isSuffixOf s) := by
    intro s
    simp only [FORMAL_ENDINGS, shortFormalEndings, List.any_cons, List.any_nil,
      Bool.or_false]
    rw [Bool.eq_iff_iff]
    simp only [Bool.or_eq_true, List.isSuffixOf_iff_suffix]
    constructor
    · rintro (h | h | h | h | h | h)
      · exact Or.inl (sub1.trans h)
      · exact Or.inr (Or.inl (sub2.trans h))
      · exact Or.inr (Or.inr (sub3.trans h))
      · exact Or.inl h
      · exact Or.inr (Or.inl h)
      · exact Or.inr (Or.inr h)
    · rintro (h | h | h)
      · exact Or.inr (Or.inr (Or.inr (Or.inl h)))
      · exact Or.inr (Or.inr (Or.inr (Or.inr (Or.inl h))))
      · exact Or.inr (Or.inr (Or.inr (Or.inr (Or.inr h))))
  refine ⟨key, ?_⟩
  unfold formalCount
  rw [List.filter_congr (fun s _ => key s)]

/-- In the non-zero-token branch, the average sentence length is the
sentence-length sum over the guarded sentence count. -/
theorem cf_avg (text : List Char) (hT : ¬ (simple_tokenize text).length = 0) :
    (compute_features text).avg_sentence_len =
      if (if (split_sentences text).isEmpty then 1 else (split_sentences text).length) ≠ 0 then
        ((((split_sentences text).map fun s => (simple_tokenize s).length).sum : ℕ) : ℝ) /
          (((if (split_sentences text).isEmpty then 1 else (split_sentences text).length) : ℕ) : ℝ)
      else 0 := by
  simp only [compute_features]
  rw [if_neg hT]

/-- In the non-zero-token branch, the burstiness is the guarded
standard deviation over the average, with the source's guards. -/
theorem cf_burst (text : List Char) (hT : ¬ (simple_tokenize text).length = 0) :
    (compute_features text).sentence_burstiness =
      (if 0 <
          (if (if (split_sentences text).isEmpty then 1
              else (split_sentences text).length) ≠ 0 then
            ((((split_sentences text).map fun s => (simple_tokenize s).length).sum : ℕ) : ℝ) /
              (((if (split_sentences text).isEmpty then 1
                else (split_sentences text).length) : ℕ) : ℝ)
          else 0) then
        (if 1 < ((split_sentences text).map fun s => (simple_tokenize s).length).length then
          Real.sqrt
            (((((split_sentences text).map fun s => (simple_tokenize s).length).map
                (fun l => ((l : ℝ) -
                  (if (if (split_sentences text).isEmpty then 1
                      else (split_sentences text).length) ≠ 0 then
                    ((((split_sentences text).map fun s =>
                      (simple_tokenize s).length).sum : ℕ) : ℝ) /
                      (((if (split_sentences text).isEmpty then 1
                        else (split_sentences text).length) : ℕ) : ℝ)
                  else 0)) ^ 2)).sum)
              / ((((split_sentences text).map fun s =>
                  (simple_tokenize s).length).length : ℝ) - 1))
        else 0) /
          (if (if (split_sentences text).isEmpty then 1
              else (split_sentences text).length) ≠ 0 then
            ((((split_sentences text).map fun s => (simple_tokenize s).length).sum : ℕ) : ℝ) /
              (((if (split_sentences text).isEmpty then 1
                else (split_sentences text).length) : ℕ) : ℝ)
          else 0)
      else 0) := by
  simp only [compute_features]
  rw [if_neg hT]

/-- Claim C7: `sentence_burstiness` is the sample standard deviation
(denominator `n − 1`) of the per-sentence token counts divided by
`avg_sentence_len` when there are at least two sentences and
`avg_sentence_len > 0`; it is 0 when `avg_sentence_len = 0` or when
there are fewer than two sentences (in particular for every
single-sentence input). -/
theorem c7_burstiness (text : List Char) :
    (2 ≤ (split_sentences text).length →
      0 < (compute_features text).avg_sentence_len →
      (compute_features text).sentence_burstiness =
        sampleStd ((split_sentences text).map fun s => (simple_tokenize s).length) /
          (compute_features text).avg_sentence_len) ∧
    ((compute_features text).avg_sentence_len = 0 ∨ (split_sentences text).length < 2 →
      (compute_features text).sentence_burstiness = 0) := by
  constructor
  · intro h2 hpos
    have hT : ¬ (simple_tokenize text).length = 0 := by
      intro h0
      have hz : (compute_features text).avg_sentence_len = 0 := by
        simp [compute_features, h0]
      rw [hz] at hpos
      exact lt_irrefl 0 hpos
    have hSne : ¬ (split_sentences text).isEmpty = true := by
      rw [List.isEmpty_iff_length_eq_zero]
      omega
    have hNS : (if (split_sentences text).isEmpty then 1
        else (split_sentences text).length) = (split_sentences text).length := if_neg hSne
    have hLlen : ((split_sentences text).map fun s => (simple_tokenize s).length).length =
        (split_sentences text).length := List.length_map _ _
    have hA : (compute_features text).avg_sentence_len =
        meanList ((split_sentences text).map fun s => (simple_tokenize s).length) := by
      rw [cf_avg text hT, hNS, if_pos (by omega : ¬ (split_sentences text).length = 0)]
      unfold meanList
      rw [hLlen]
    have hA2 := (cf_avg text hT).symm.trans hA
    rw [cf_avg text hT] at hpos
    rw [cf_burst text hT, cf_avg text hT]
    rw [if_pos hpos]
    rw [hA2]
    rw [if_pos (by rw [hLlen]; omega : 1 <
      ((split_sentences text).map fun s => (simple_tokenize s).length).length)]
    unfold sampleStd
    rfl

  · intro hOr
    by_cases hT : (simple_tokenize text).length = 0
    · simp [compute_features, hT]
    · rcases hOr with hA0 | hlen
      · rw [cf_burst text hT]
        rw [cf_avg text hT] at hA0
        rw [hA0]
        rw [if_neg (lt_irrefl 0)]
      · rw [cf_burst text hT]
        have h1 : ¬ 1 < ((split_sentences text).map fun s => (simple_tokenize s).length).length := by
          rw [List.length_map]
          omega
        rw [if_neg h1]
        rw [zero_div]
        split_ifs <;> rfl

/-- Witness for C7: the two-sentence input `"aa bb. cc."` (sentence
token counts 2 and 1, positive average) exercises the standard-deviation
branch, and the single-sentence input `"ab"` exercises the zero
branch. -/
theorem c7_burstiness_witness :
    (2 ≤ (split_sentences ("aa bb. cc.".toList)).length ∧
     0 < (compute_features ("aa bb. cc.".toList)).avg_sentence_len ∧
     (compute_features ("aa bb. cc.".toList)).sentence_burstiness =
       sampleStd ((split_sentences ("aa bb. cc.".toList)).map fun s =>
         (simple_tokenize s).length) /
         (compute_features ("aa bb. cc.".toList)).avg_sentence_len) ∧
    (((compute_features ['a', 'b']).avg_sentence_len = 0 ∨
        (split_sentences ['a', 'b']).length < 2) ∧
     (compute_features ['a', 'b']).sentence_burstiness = 0) := by
  have hT : ¬ (simple_tokenize ("aa bb. cc.".toList)).length = 0 := by decide
  have h1 : split_sentences ("aa bb. cc.".toList) = ["aa bb.".toList, "cc.".toList] := by
    decide
  have h2 : ((["aa bb.".toList, "cc.".toList] : List (List Char)).map fun s =>
      (simple_tokenize s).length) = [2, 1] := by decide
  have hpos : 0 < (compute_features ("aa bb. cc.".toList)).avg_sentence_len := by
    rw [cf_avg _ hT, h1, h2]
    norm_num
  exact ⟨⟨by decide, hpos, (c7_burstiness _).1 (by decide) hpos⟩,
         ⟨Or.inr (by decide), (c7_burstiness _).2 (Or.inr (by decide))⟩⟩

end GPTKK
